import Mathlib

/-
Verification of the configuration-resolution module of django-q
(src/django_q/conf.py): a shallow embedding of the `Conf` class body,
`get_redis_client` and `get_ppid`, together with theorems about the
worker-count fallback chain, per-field defaulting, derived redis keys,
capability probes and client selection.

Python values appearing in the `Q_CLUSTER` overrides mapping are modelled
two levels deep: scalars (None, bool, int, str) and one-level dicts of
scalars (the `redis` options blob).  The module under verification never
looks inside dict values, so this depth is sufficient.

Platform facilities probed by the module (`multiprocessing.cpu_count`,
`psutil`, `Queue().qsize()`, importability of `django_redis`,
`os.getppid`) are modelled as an explicit environment record `Env`;
a `Option.none` outcome stands for the corresponding call raising
`NotImplementedError` / the facility being absent.
-/

namespace DjangoQ

/-- A Python scalar value as it occurs in the overrides mapping. -/
inductive PyScalar where
  | snone
  | sbool (b : Bool)
  | sint (n : Int)
  | sstr (s : String)
deriving Repr, DecidableEq

/-- A Python value in the overrides mapping: a scalar or a one-level dict
of scalars (only the `redis` options blob is a dict, and the module never
inspects its contents). -/
inductive PyValue where
  | scalar (v : PyScalar)
  | pydict (entries : List (String × PyScalar))
deriving Repr, DecidableEq

def pyNone : PyValue := .scalar .snone

def pyBool (b : Bool) : PyValue := .scalar (.sbool b)

def pyInt (n : Int) : PyValue := .scalar (.sint n)

def pyStr (s : String) : PyValue := .scalar (.sstr s)

/-- Python truthiness of a scalar (`bool(v)`). -/
def PyScalar.truthy : PyScalar → Bool
  | .snone => false
  | .sbool b => b
  | .sint n => n != 0
  | .sstr s => s != ""

/-- Python truthiness of a value (`bool(v)`); a dict is truthy iff non-empty. -/
def PyValue.truthy : PyValue → Bool
  | .scalar v => v.truthy
  | .pydict es => !es.isEmpty

/-- Python `repr` of a scalar, as used when a dict is stringified. -/
def PyScalar.pyrepr : PyScalar → String
  | .snone => "None"
  | .sbool true => "True"
  | .sbool false => "False"
  | .sint n => toString n
  | .sstr s => "\x27" ++ s ++ "\x27"

/-- Python `str(v)`, as invoked by `'...\x7b\x7d...'.format(v)`. -/
def PyValue.pystr : PyValue → String
  | .scalar .snone => "None"
  | .scalar (.sbool true) => "True"
  | .scalar (.sbool false) => "False"
  | .scalar (.sint n) => toString n
  | .scalar (.sstr s) => s
  | .pydict es =>
      "\x7b" ++ String.intercalate ", "
        (es.map (fun p => "\x27" ++ p.1 ++ "\x27: " ++ p.2.pyrepr)) ++ "\x7d"

/-- The overrides mapping `settings.Q_CLUSTER` (an association list;
`lookup` returns the first binding, matching dict semantics since keys are
unique in a Python dict). -/
abbrev Overrides := List (String × PyValue)

/-- `conf.get(key, dflt)` on the overrides mapping. -/
def confGet (conf : Overrides) (key : String) (dflt : PyValue) : PyValue :=
  match conf.lookup key with
  | some v => v
  | Option.none => dflt

/-- Outcomes of the platform probes performed at module import time.
`Option.none` models the facility raising `NotImplementedError` (for
`cpuCount`, `qsizeResult`), returning Python `None` (for
`psutilCpuCount`), or being absent (for `osGetppid`). -/
structure Env where
  /-- `multiprocessing.cpu_count()`: `some n` on success. -/
  cpuCount : Option Nat
  /-- whether `import psutil` succeeded. -/
  psutilPresent : Bool
  /-- `psutil.cpu_count()` result when `psutil` is present. -/
  psutilCpuCount : Option Nat
  /-- `Queue().qsize()`: `some n` when the primitive is implemented. -/
  qsizeResult : Option Nat
  /-- whether `import django_redis` succeeds. -/
  djangoRedisImportable : Bool
  /-- `os.getppid()` when the runtime exposes it (`hasattr(os, 'getppid')`). -/
  osGetppid : Option Nat
  /-- `psutil.Process(os.getpid()).ppid()` when `psutil` is present. -/
  psutilPpid : Nat
deriving Repr, DecidableEq

/-- Lines 52-61 of conf.py, the body of the `if not WORKERS:` branch:
try `cpu_count()`; on `NotImplementedError`, `psutil.cpu_count() or 4`
when psutil is present (a zero or `None` result falls through to 4), else
the literal 4. -/
def cpuFallback (env : Env) : PyValue :=
  match env.cpuCount with
  | some n => pyInt n
  | Option.none =>
      if env.psutilPresent then
        match env.psutilCpuCount with
        | some m => if m != 0 then pyInt m else pyInt 4
        | Option.none => pyInt 4
      else pyInt 4

/-- Lines 50-61 of conf.py:
`WORKERS = conf.get('workers', False)`; if not truthy, run the probe
fallback chain. -/
def Conf.WORKERS (conf : Overrides) (env : Env) : PyValue :=
  let w := confGet conf "workers" (pyBool false)
  if w.truthy then w else cpuFallback env

/-- Line 96-98 of conf.py: `QSIZE = Queue().qsize() == 0`, with
`NotImplementedError` caught and mapped to `False`. -/
def Conf.QSIZE_of (env : Env) : Bool :=
  match env.qsizeResult with
  | some n => n == 0
  | Option.none => false

/-- Line 90 of conf.py: `Q_LIST = 'django_q:\x7b\x7d:q'.format(PREFIX)`. -/
def Conf.Q_LIST_of (pfx : PyValue) : String :=
  "django_q:" ++ pfx.pystr ++ ":q"

/-- Line 92 of conf.py: `Q_STAT = 'django_q:\x7b\x7d:cluster'.format(PREFIX)`. -/
def Conf.Q_STAT_of (pfx : PyValue) : String :=
  "django_q:" ++ pfx.pystr ++ ":cluster"

/-- The result of `dir(signal)` at line 101 of conf.py.  Line 2 reads
`from signal import signal`, so the name `signal` is bound to the
*function* `signal.signal`, not the `signal` module: `dir` enumerates the
attribute names of a Python function object, all of them dunder names. -/
def dirSignalCallable : List String :=
  ["__annotations__", "__call__", "__class__", "__closure__", "__code__",
   "__defaults__", "__delattr__", "__dict__", "__dir__", "__doc__",
   "__eq__", "__format__", "__ge__", "__get__", "__getattribute__",
   "__globals__", "__gt__", "__hash__", "__init__", "__init_subclass__",
   "__kwdefaults__", "__le__", "__lt__", "__module__", "__name__",
   "__ne__", "__new__", "__qualname__", "__reduce__", "__reduce_ex__",
   "__repr__", "__self__", "__setattr__", "__sizeof__", "__str__",
   "__subclasshook__", "__text_signature__", "__wrapped__"]

/-- `n.startswith('SIG')`, spelled out on the character list. -/
def startsWithSIG (n : String) : Bool :=
  match n.toList with
  | 'S' :: 'I' :: 'G' :: _ => true
  | _ => false

/-- The filter at line 101: `n.startswith('SIG') and '_' not in n`. -/
def sigNameFilter (n : String) : Bool :=
  startsWithSIG n && !(n.toList.contains '_')

/-- Line 101 of conf.py, generic in the enumerated attribute space:
`dict((getattr(signal, n), n) for n in dir(signal) if n.startswith('SIG')
and '_' not in n)`, as an association list numeric code → name. -/
def Conf.SIGNAL_NAMES_of (attrs : List String) (getattrVal : String → Int) :
    List (Int × String) :=
  (attrs.filter sigNameFilter).map (fun n => (getattrVal n, n))

/-- The table the code actually builds: the attribute space is
`dirSignalCallable` (the function object's attributes).  No attribute of
the callable passes the SIG filter, so the valuation argument is never
consulted (see `signal_names_bug`); it is supplied as the constant 0. -/
def Conf.SIGNAL_NAMES : List (Int × String) :=
  Conf.SIGNAL_NAMES_of dirSignalCallable (fun _ => 0)

/-- A sample of the `signal` *module's* attribute space — what line 101
was evidently meant to enumerate — with the numeric codes `getattr` would
return on a conventional platform. -/
def dirSignalModuleSample : List String :=
  ["SIGINT", "SIGKILL", "SIGTERM", "SIG_DFL", "SIG_IGN", "NSIG",
   "getsignal", "signal", "default_int_handler"]

def getattrSignalModuleSample : String → Int
  | "SIGINT" => 2
  | "SIGKILL" => 9
  | "SIGTERM" => 15
  | "SIG_DFL" => 0
  | "SIG_IGN" => 1
  | _ => 0

/-- The fatal configuration error of resolution. -/
inductive ConfigError where
  | MissingSecret
deriving Repr, DecidableEq

/-- Modelled from the spec: the host settings layer rejects an empty
signing secret (`ConfigError(MissingSecret)`, fatal).  The module itself
only copies `settings.SECRET_KEY` verbatim (line 87 of conf.py); the
emptiness check lives in the host application's settings machinery, which
is outside this repository, and the code's comment at line 86 delegates
the error to it. -/
def settingsSecretKey (hostSecret : String) : Except ConfigError String :=
  if hostSecret = "" then .error .MissingSecret else .ok hostSecret

/-- The resolved configuration snapshot: the class attributes of `Conf`
(lines 24-111 of conf.py).  `PFX` embeds the source field `PREFIX`
(line 37). -/
structure Snapshot where
  REDIS : PyValue
  DJANGO_REDIS : PyValue
  PFX : PyValue
  LOG_LEVEL : PyValue
  SAVE_LIMIT : PyValue
  QUEUE_LIMIT : PyValue
  WORKERS : PyValue
  COMPRESSED : PyValue
  RECYCLE : PyValue
  TIMEOUT : PyValue
  LABEL : PyValue
  CPU_AFFINITY : PyValue
  SYNC : PyValue
  CATCH_UP : PyValue
  SECRET_KEY : String
  Q_LIST : String
  Q_STAT : String
  QSIZE : Bool
  SIGNAL_NAMES : List (Int × String)
  TESTING : PyValue
deriving Repr, DecidableEq

/-- The snapshot built by the `Conf` class body from the overrides
mapping, the (already accepted) signing secret and the probe outcomes:
each field is the corresponding `conf.get(key, dflt)` of lines 30-111,
the derived keys of lines 90-92, and the probe results. -/
def Conf.snapshotOf (conf : Overrides) (sk : String) (env : Env) : Snapshot :=
  let pfx := confGet conf "name" (pyStr "default")
  { REDIS := confGet conf "redis" (.pydict [])
    DJANGO_REDIS := confGet conf "django_redis" pyNone
    PFX := pfx
    LOG_LEVEL := confGet conf "log_level" (pyStr "INFO")
    SAVE_LIMIT := confGet conf "save_limit" (pyInt 250)
    QUEUE_LIMIT := confGet conf "queue_limit" pyNone
    WORKERS := Conf.WORKERS conf env
    COMPRESSED := confGet conf "compress" (pyBool false)
    RECYCLE := confGet conf "recycle" (pyInt 500)
    TIMEOUT := confGet conf "timeout" pyNone
    LABEL := confGet conf "label" (pyStr "Django Q")
    CPU_AFFINITY := confGet conf "cpu_affinity" (pyInt 0)
    SYNC := confGet conf "sync" (pyBool false)
    CATCH_UP := confGet conf "catch_up" (pyBool true)
    SECRET_KEY := sk
    Q_LIST := Conf.Q_LIST_of pfx
    Q_STAT := Conf.Q_STAT_of pfx
    QSIZE := Conf.QSIZE_of env
    SIGNAL_NAMES := Conf.SIGNAL_NAMES
    TESTING := confGet conf "testing" (pyBool false) }

/-- Resolution of the whole module: the secret is obtained from the host
settings layer (fatal `MissingSecret` on an empty secret), then the class
body computes every field eagerly. -/
def Conf.resolve (conf : Overrides) (hostSecret : String) (env : Env) :
    Except ConfigError Snapshot :=
  match settingsSecretKey hostSecret with
  | .error e => .error e
  | .ok sk => .ok (Conf.snapshotOf conf sk env)

/-- The store client handle returned by `get_redis_client`. -/
inductive RedisClient where
  | pooled (aliasName : PyValue)
  | direct (options : PyValue)
deriving Repr, DecidableEq

/-- Lines 135-142 of conf.py: `if Conf.DJANGO_REDIS and django_redis:`
return the django-redis pooled connection for the alias, else
`redis.StrictRedis(**Conf.REDIS)`. -/
def get_redis_client (snap : Snapshot) (env : Env) : RedisClient :=
  if snap.DJANGO_REDIS.truthy && env.djangoRedisImportable then
    .pooled snap.DJANGO_REDIS
  else
    .direct snap.REDIS

/-- Lines 150-156 of conf.py: `os.getppid()` when the runtime exposes it,
else psutil's parent-pid lookup when psutil is present, else raise
`OSError`. -/
def get_ppid (env : Env) : Except String Nat :=
  match env.osGetppid with
  | some p => .ok p
  | Option.none =>
      if env.psutilPresent then .ok env.psutilPpid
      else .error "Your OS does not support `os.getppid`. Please install `psutil` as an alternative provider."

/-- The configuration keys the module reads from the overrides mapping. -/
def documentedKeys : List String :=
  ["redis", "django_redis", "name", "log_level", "save_limit",
   "queue_limit", "workers", "compress", "recycle", "timeout", "label",
   "cpu_affinity", "sync", "catch_up", "testing"]

/-- Removal of a key from the overrides mapping (used to compare a falsy
`workers` binding with its absence). -/
def removeKey (conf : Overrides) (k : String) : Overrides :=
  conf.filter (fun p => p.1 != k)

/-! ### Concrete probe environments used by witnesses and counterexamples -/

/-- A conventional host: the OS reports 8 CPUs, qsize is implemented,
psutil and django-redis are absent, `os.getppid` exists. -/
def envOS : Env :=
  { cpuCount := some 8, psutilPresent := false,
    psutilCpuCount := Option.none, qsizeResult := some 0,
    djangoRedisImportable := false, osGetppid := some 1, psutilPpid := 1 }

/-- A bare host: every probe fails and every optional facility is absent. -/
def envBare : Env :=
  { cpuCount := Option.none, psutilPresent := false,
    psutilCpuCount := Option.none, qsizeResult := Option.none,
    djangoRedisImportable := false, osGetppid := Option.none,
    psutilPpid := 1 }

/-- A host where the OS probe raises but psutil is present (reporting 2
CPUs), and django-redis is importable. -/
def envPsutil : Env :=
  { cpuCount := Option.none, psutilPresent := true,
    psutilCpuCount := some 2, qsizeResult := some 0,
    djangoRedisImportable := true, osGetppid := Option.none,
    psutilPpid := 42 }

/-! ### Helper lemmas -/

theorem confGet_congr (conf conf2 : Overrides) (k : String) (d : PyValue)
    (h : conf.lookup k = conf2.lookup k) :
    confGet conf k d = confGet conf2 k d := by
  unfold confGet
  rw [h]

theorem WORKERS_congr (conf conf2 : Overrides) (env : Env)
    (h : conf.lookup "workers" = conf2.lookup "workers") :
    Conf.WORKERS conf env = Conf.WORKERS conf2 env := by
  unfold Conf.WORKERS
  rw [confGet_congr conf conf2 "workers" (pyBool false) h]

theorem lookup_removeKey (conf : Overrides) (k : String) :
    (removeKey conf k).lookup k = Option.none := by
  induction conf with
  | nil => rfl
  | cons p t ih =>
      by_cases h : p.1 = k
      · simpa [removeKey, List.filter_cons, h] using ih
      · simp only [removeKey, List.filter_cons] at ih ⊢
        simp only [bne_iff_ne, ne_eq, h, not_false_eq_true, if_true,
          List.lookup]
        have : (k == p.1) = false := by
          simp [beq_iff_eq]
          exact fun hk => h hk.symm
        rw [this]
        exact ih

theorem resolve_ok_iff (conf : Overrides) (secret : String) (env : Env)
    (snap : Snapshot) :
    Conf.resolve conf secret env = Except.ok snap ↔
      secret ≠ "" ∧ snap = Conf.snapshotOf conf secret env := by
  by_cases hs : secret = "" <;>
    simp [Conf.resolve, settingsSecretKey, hs, eq_comm]

theorem cpuFallback_pos (env : Env)
    (hcpu : ∀ n, env.cpuCount = some n → 1 ≤ n) :
    ∃ n : Int, cpuFallback env = pyInt n ∧ 1 ≤ n := by
  unfold cpuFallback
  cases hc : env.cpuCount with
  | some n =>
      refine ⟨n, rfl, ?_⟩
      exact_mod_cast hcpu n hc
  | none =>
      by_cases hp : env.psutilPresent = true
      · rw [if_pos hp]
        cases hm : env.psutilCpuCount with
        | some m =>
            by_cases h0 : m = 0
            · subst h0
              exact ⟨4, by simp, by norm_num⟩
            · refine ⟨m, ?_, ?_⟩
              · simp [h0]
              · exact_mod_cast Nat.one_le_iff_ne_zero.mpr h0
        | none => exact ⟨4, rfl, by norm_num⟩
      · rw [if_neg hp]
        exact ⟨4, rfl, by norm_num⟩

/-! ### Claim theorems -/

/-- C1: the resolved worker count follows the fallback chain in strict
priority order: a truthy `workers` override always wins, regardless of
the probe outcomes; otherwise the OS-reported CPU count is used when the
call succeeds; when it raises, the psutil count is used when psutil is
present and its result is non-zero and non-absent; in every remaining
case the count is the literal 4. -/
theorem workers_fallback_priority (conf : Overrides) (env : Env) :
    (∀ w, conf.lookup "workers" = some w → w.truthy = true →
        Conf.WORKERS conf env = w)
    ∧ ((confGet conf "workers" (pyBool false)).truthy = false →
        (∀ n, env.cpuCount = some n → Conf.WORKERS conf env = pyInt n)
        ∧ (env.cpuCount = Option.none →
            (∀ m, env.psutilPresent = true → env.psutilCpuCount = some m →
                m ≠ 0 → Conf.WORKERS conf env = pyInt m)
            ∧ ((env.psutilPresent = false ∨ env.psutilCpuCount = Option.none
                ∨ env.psutilCpuCount = some 0) →
                Conf.WORKERS conf env = pyInt 4))) := by
  refine ⟨?_, ?_⟩
  · intro w hw ht
    simp [Conf.WORKERS, confGet, hw, ht]
  · intro hf
    refine ⟨?_, ?_⟩
    · intro n hn
      simp [Conf.WORKERS, hf, cpuFallback, hn]
    · intro hc
      refine ⟨?_, ?_⟩
      · intro m hp hm hm0
        simp [Conf.WORKERS, hf, cpuFallback, hc, hp, hm, hm0]
      · rintro (hp | hm | hm)
        · simp [Conf.WORKERS, hf, cpuFallback, hc, hp]
        · simp [Conf.WORKERS, hf, cpuFallback, hc, hm]
        · simp [Conf.WORKERS, hf, cpuFallback, hc, hm]

/-- Witness for C1: a truthy override of 3 is adopted on a host with 8
CPUs, and the bare host with no working probe resolves to 4. -/
theorem workers_fallback_priority_witness :
    Conf.WORKERS [("workers", pyInt 3)] envOS = pyInt 3
    ∧ Conf.WORKERS [] envBare = pyInt 4 :=
  ⟨(workers_fallback_priority [("workers", pyInt 3)] envOS).1 (pyInt 3)
      rfl rfl,
   (((workers_fallback_priority [] envBare).2 (by decide)).2 rfl).2
      (Or.inl rfl)⟩

/-- C4 counterexample: the claim that the resolved worker count is always
an integer at least 1 fails — the override `workers = -3` is truthy (a
non-zero int), so the code adopts it verbatim and the resolved count is
-3, which is below 1. -/
theorem workers_ge_one_counterexample :
    Conf.WORKERS [("workers", pyInt (-3))] envOS = pyInt (-3)
    ∧ ¬ (1 ≤ (-3 : Int)) := by
  exact ⟨by decide, by decide⟩

/-- C4 amended: whenever the `workers` override is absent or falsy, the
resolved worker count is an integer at least 1 for every probe outcome
(a successful OS CPU-count call reporting a positive count); a truthy
override is adopted verbatim and is not clamped. -/
theorem workers_ge_one_amended (conf : Overrides) (env : Env)
    (hw : (confGet conf "workers" (pyBool false)).truthy = false)
    (hcpu : ∀ n, env.cpuCount = some n → 1 ≤ n) :
    ∃ n : Int, Conf.WORKERS conf env = pyInt n ∧ 1 ≤ n := by
  have h : Conf.WORKERS conf env = cpuFallback env := by
    simp [Conf.WORKERS, hw]
  rw [h]
  exact cpuFallback_pos env hcpu

/-- Witness for C4's amended theorem: on the 8-CPU host with no override
the resolved count is a positive integer. -/
theorem workers_ge_one_amended_witness :
    ∃ n : Int, Conf.WORKERS [] envOS = pyInt n ∧ 1 ≤ n :=
  workers_ge_one_amended [] envOS (by decide)
    (by intro n h; simp [envOS] at h; omega)

/-- C10: a falsy `workers` override (here the int 0) is discarded — the
resolution is exactly the one obtained with the key removed from the
mapping — and, the probe fallback values all being positive, the resolved
worker count can never be 0. -/
theorem workers_falsy_override_ignored (conf : Overrides) (env : Env)
    (w : PyValue) (hw : conf.lookup "workers" = some w)
    (hf : w.truthy = false)
    (hcpu : ∀ n, env.cpuCount = some n → 1 ≤ n) :
    Conf.WORKERS conf env = Conf.WORKERS (removeKey conf "workers") env
    ∧ Conf.WORKERS conf env ≠ pyInt 0 := by
  have h1 : Conf.WORKERS conf env = cpuFallback env := by
    simp [Conf.WORKERS, confGet, hw, hf]
  have h2 : Conf.WORKERS (removeKey conf "workers") env = cpuFallback env := by
    simp [Conf.WORKERS, confGet, lookup_removeKey, pyBool, PyScalar.truthy,
      PyValue.truthy]
  obtain ⟨n, hn, hn1⟩ := cpuFallback_pos env hcpu
  refine ⟨h1.trans h2.symm, ?_⟩
  rw [h1, hn]
  simp [pyInt]
  omega

/-- Witness for C10: `workers = 0` on the 8-CPU host resolves as if the
key were absent, and not to 0. -/
theorem workers_falsy_override_ignored_witness :
    Conf.WORKERS [("workers", pyInt 0)] envOS
      = Conf.WORKERS (removeKey [("workers", pyInt 0)] "workers") envOS
    ∧ Conf.WORKERS [("workers", pyInt 0)] envOS ≠ pyInt 0 :=
  workers_falsy_override_ignored [("workers", pyInt 0)] envOS (pyInt 0)
    rfl rfl (by intro n h; simp [envOS] at h; omega)

/-- C2: resolution with an empty signing secret fails with the
missing-secret configuration error, resolution with any non-empty secret
succeeds, and the `SECRET_KEY` field of the snapshot is the host secret
copied verbatim. -/
theorem secret_key_resolution (conf : Overrides) (env : Env) :
    Conf.resolve conf "" env = .error ConfigError.MissingSecret
    ∧ ∀ secret, secret ≠ "" →
        Conf.resolve conf secret env
          = .ok (Conf.snapshotOf conf secret env)
        ∧ (Conf.snapshotOf conf secret env).SECRET_KEY = secret := by
  refine ⟨rfl, ?_⟩
  intro secret hs
  exact ⟨by simp [Conf.resolve, settingsSecretKey, hs], rfl⟩

/-- Witness for C2: the empty secret is rejected, the secret "s3cr3t" is
accepted and copied into the snapshot. -/
theorem secret_key_resolution_witness :
    Conf.resolve [] "" envOS = .error ConfigError.MissingSecret
    ∧ Conf.resolve [] "s3cr3t" envOS
        = .ok (Conf.snapshotOf [] "s3cr3t" envOS)
    ∧ (Conf.snapshotOf [] "s3cr3t" envOS).SECRET_KEY = "s3cr3t" :=
  ⟨(secret_key_resolution [] envOS).1,
   ((secret_key_resolution [] envOS).2 "s3cr3t" (by decide)).1,
   ((secret_key_resolution [] envOS).2 "s3cr3t" (by decide)).2⟩

/-- C3 (code bug): the table the code builds is empty — line 2's
`from signal import signal` binds the name `signal` to the function, so
line 101 enumerates the function object's attributes, none of which pass
the SIG filter; in particular there is no entry for the interrupt signal
(code 2).  The same construction applied to the signal *module's*
attribute space produces exactly the table the claim describes: SIG*
names mapped from their codes, with the underscore-qualified variants
`SIG_DFL`/`SIG_IGN` excluded. -/
theorem signal_names_bug :
    Conf.SIGNAL_NAMES = []
    ∧ Conf.SIGNAL_NAMES.lookup 2 = Option.none
    ∧ Conf.SIGNAL_NAMES_of dirSignalModuleSample getattrSignalModuleSample
        = [(2, "SIGINT"), (9, "SIGKILL"), (15, "SIGTERM")] := by
  refine ⟨by decide, by decide, by decide⟩

/-- C5: client selection — a truthy alias with an importable django-redis
module yields the pooled connection for that alias; a truthy alias with
the module unavailable silently falls back to the direct client built
from the store options; a falsy alias always yields the direct client. -/
theorem redis_client_selection (snap : Snapshot) (env : Env) :
    (snap.DJANGO_REDIS.truthy = true → env.djangoRedisImportable = true →
        get_redis_client snap env = RedisClient.pooled snap.DJANGO_REDIS)
    ∧ (snap.DJANGO_REDIS.truthy = true →
        env.djangoRedisImportable = false →
        get_redis_client snap env = RedisClient.direct snap.REDIS)
    ∧ (snap.DJANGO_REDIS.truthy = false →
        get_redis_client snap env = RedisClient.direct snap.REDIS) := by
  refine ⟨?_, ?_, ?_⟩
  · intro h1 h2
    simp [get_redis_client, h1, h2]
  · intro h1 h2
    simp [get_redis_client, h1, h2]
  · intro h1
    simp [get_redis_client, h1]

/-- Witness for C5: with alias "default", the pooled client is returned
when django-redis imports, and the direct client (empty store options)
when it does not. -/
theorem redis_client_selection_witness :
    get_redis_client
        (Conf.snapshotOf [("django_redis", pyStr "default")] "k" envPsutil)
        envPsutil
      = RedisClient.pooled (pyStr "default")
    ∧ get_redis_client
        (Conf.snapshotOf [("django_redis", pyStr "default")] "k" envBare)
        envBare
      = RedisClient.direct (PyValue.pydict []) :=
  ⟨(redis_client_selection
      (Conf.snapshotOf [("django_redis", pyStr "default")] "k" envPsutil)
      envPsutil).1 (by decide) rfl,
   (redis_client_selection
      (Conf.snapshotOf [("django_redis", pyStr "default")] "k" envBare)
      envBare).2.1 (by decide) rfl⟩

/-- C6: the queue-introspection probe never fails the resolution — for
every probe outcome resolution returns a snapshot (given a non-empty
secret), the snapshot's `QSIZE` flag is the probe result, the flag is
true when the fresh queue's size reads back as 0, and false when the
primitive raises `NotImplementedError`. -/
theorem qsize_probe_recovered (conf : Overrides) (secret : String)
    (env : Env) (hs : secret ≠ "") :
    Conf.resolve conf secret env = .ok (Conf.snapshotOf conf secret env)
    ∧ (Conf.snapshotOf conf secret env).QSIZE = Conf.QSIZE_of env
    ∧ (env.qsizeResult = some 0 → Conf.QSIZE_of env = true)
    ∧ (env.qsizeResult = Option.none → Conf.QSIZE_of env = false) := by
  refine ⟨by simp [Conf.resolve, settingsSecretKey, hs], rfl, ?_, ?_⟩
  · intro h
    simp [Conf.QSIZE_of, h]
  · intro h
    simp [Conf.QSIZE_of, h]

/-- Witness for C6: on the bare host, whose qsize primitive raises,
resolution still succeeds and the flag is false. -/
theorem qsize_probe_recovered_witness :
    Conf.resolve [] "k" envBare = .ok (Conf.snapshotOf [] "k" envBare)
    ∧ Conf.QSIZE_of envBare = false :=
  ⟨(qsize_probe_recovered [] "k" envBare (by decide)).1,
   (qsize_probe_recovered [] "k" envBare (by decide)).2.2.2 rfl⟩

/-- C9: `get_ppid` returns the OS-native parent pid whenever the runtime
exposes `os.getppid`; otherwise it returns the psutil-reported parent pid
when psutil is present; and it raises `OSError` if and only if neither
facility is available. -/
theorem get_ppid_spec (env : Env) :
    (∀ p, env.osGetppid = some p → get_ppid env = .ok p)
    ∧ (env.osGetppid = Option.none → env.psutilPresent = true →
        get_ppid env = .ok env.psutilPpid)
    ∧ ((∃ e, get_ppid env = .error e)
        ↔ env.osGetppid = Option.none ∧ env.psutilPresent = false) := by
  refine ⟨?_, ?_, ?_⟩
  · intro p hp
    simp [get_ppid, hp]
  · intro h1 h2
    simp [get_ppid, h1, h2]
  · constructor
    · rintro ⟨e, he⟩
      cases ho : env.osGetppid with
      | some p => simp [get_ppid, ho] at he
      | none =>
          by_cases hp : env.psutilPresent = true
          · simp [get_ppid, ho, hp] at he
          · exact ⟨rfl, by simpa using hp⟩
    · rintro ⟨h1, h2⟩
      refine ⟨"Your OS does not support `os.getppid`. Please install `psutil` as an alternative provider.", ?_⟩
      simp [get_ppid, h1, h2]

/-- Witness for C9: on the conventional host `get_ppid` returns the
OS-reported pid 1; on the bare host it raises. -/
theorem get_ppid_spec_witness :
    get_ppid envOS = .ok 1 ∧ ∃ e, get_ppid envBare = .error e :=
  ⟨(get_ppid_spec envOS).1 1 rfl,
   (get_ppid_spec envBare).2.2.mpr ⟨rfl, rfl⟩⟩

/-- C7: for every resolved snapshot, a string cluster name `s` yields
`Q_LIST = "django_q:" ++ s ++ ":q"` and
`Q_STAT = "django_q:" ++ s ++ ":cluster"`; an absent name yields the
default-name keys; and both keys are determined by the snapshot's
cluster-name field alone. -/
theorem derived_keys (conf : Overrides) (secret : String) (env : Env)
    (snap : Snapshot) (h : Conf.resolve conf secret env = .ok snap) :
    (∀ s, conf.lookup "name" = some (pyStr s) →
        snap.Q_LIST = "django_q:" ++ s ++ ":q"
        ∧ snap.Q_STAT = "django_q:" ++ s ++ ":cluster")
    ∧ (conf.lookup "name" = Option.none →
        snap.Q_LIST = "django_q:default:q"
        ∧ snap.Q_STAT = "django_q:default:cluster")
    ∧ snap.Q_LIST = Conf.Q_LIST_of snap.PFX
    ∧ snap.Q_STAT = Conf.Q_STAT_of snap.PFX := by
  obtain ⟨hs, rfl⟩ := (resolve_ok_iff conf secret env snap).1 h
  refine ⟨?_, ?_, rfl, rfl⟩
  · intro s hn
    constructor <;>
      simp [Conf.snapshotOf, Conf.Q_LIST_of, Conf.Q_STAT_of, confGet, hn,
        pyStr, PyValue.pystr]
  · intro hn
    constructor <;>
      simp [Conf.snapshotOf, Conf.Q_LIST_of, Conf.Q_STAT_of, confGet, hn,
        pyStr, PyValue.pystr]

/-- Witness for C7: the cluster name "site2" yields the two namespaced
keys, matching the spec's scenario. -/
theorem derived_keys_witness :
    (Conf.snapshotOf [("name", pyStr "site2")] "k" envOS).Q_LIST
      = "django_q:site2:q"
    ∧ (Conf.snapshotOf [("name", pyStr "site2")] "k" envOS).Q_STAT
      = "django_q:site2:cluster" :=
  (derived_keys [("name", pyStr "site2")] "k" envOS
      (Conf.snapshotOf [("name", pyStr "site2")] "k" envOS)
      rfl).1 "site2" (by decide)

/-- C8: per-field defaulting — every field whose key is absent from the
overrides mapping takes its documented default, and two overrides
mappings that agree on the documented keys (so mappings differing only in
unknown keys) resolve to identical snapshots. -/
theorem per_field_defaulting (conf : Overrides) (secret : String)
    (env : Env) (snap : Snapshot)
    (h : Conf.resolve conf secret env = .ok snap) :
    ((conf.lookup "redis" = Option.none → snap.REDIS = PyValue.pydict [])
    ∧ (conf.lookup "django_redis" = Option.none →
        snap.DJANGO_REDIS = pyNone)
    ∧ (conf.lookup "name" = Option.none → snap.PFX = pyStr "default")
    ∧ (conf.lookup "log_level" = Option.none →
        snap.LOG_LEVEL = pyStr "INFO")
    ∧ (conf.lookup "save_limit" = Option.none →
        snap.SAVE_LIMIT = pyInt 250)
    ∧ (conf.lookup "queue_limit" = Option.none →
        snap.QUEUE_LIMIT = pyNone)
    ∧ (conf.lookup "compress" = Option.none →
        snap.COMPRESSED = pyBool false)
    ∧ (conf.lookup "recycle" = Option.none → snap.RECYCLE = pyInt 500)
    ∧ (conf.lookup "timeout" = Option.none → snap.TIMEOUT = pyNone)
    ∧ (conf.lookup "label" = Option.none → snap.LABEL = pyStr "Django Q")
    ∧ (conf.lookup "cpu_affinity" = Option.none →
        snap.CPU_AFFINITY = pyInt 0)
    ∧ (conf.lookup "sync" = Option.none → snap.SYNC = pyBool false)
    ∧ (conf.lookup "catch_up" = Option.none → snap.CATCH_UP = pyBool true)
    ∧ (conf.lookup "testing" = Option.none → snap.TESTING = pyBool false))
    ∧ ∀ conf2 snap2, Conf.resolve conf2 secret env = .ok snap2 →
        (∀ k, k ∈ documentedKeys → conf.lookup k = conf2.lookup k) →
        snap = snap2 := by
  obtain ⟨hs, rfl⟩ := (resolve_ok_iff conf secret env snap).1 h
  constructor
  · refine ⟨?_, ?_, ?_, ?_, ?_, ?_, ?_, ?_, ?_, ?_, ?_, ?_, ?_, ?_⟩ <;>
      · intro hk
        simp [Conf.snapshotOf, confGet, hk]
  · intro conf2 snap2 h2 hagree
    obtain ⟨hs2, rfl⟩ := (resolve_ok_iff conf2 secret env snap2).1 h2
    simp only [Conf.snapshotOf]
    rw [confGet_congr conf conf2 "redis" (PyValue.pydict [])
          (hagree "redis" (by decide)),
        confGet_congr conf conf2 "django_redis" pyNone
          (hagree "django_redis" (by decide)),
        confGet_congr conf conf2 "name" (pyStr "default")
          (hagree "name" (by decide)),
        confGet_congr conf conf2 "log_level" (pyStr "INFO")
          (hagree "log_level" (by decide)),
        confGet_congr conf conf2 "save_limit" (pyInt 250)
          (hagree "save_limit" (by decide)),
        confGet_congr conf conf2 "queue_limit" pyNone
          (hagree "queue_limit" (by decide)),
        WORKERS_congr conf conf2 env (hagree "workers" (by decide)),
        confGet_congr conf conf2 "compress" (pyBool false)
          (hagree "compress" (by decide)),
        confGet_congr conf conf2 "recycle" (pyInt 500)
          (hagree "recycle" (by decide)),
        confGet_congr conf conf2 "timeout" pyNone
          (hagree "timeout" (by decide)),
        confGet_congr conf conf2 "label" (pyStr "Django Q")
          (hagree "label" (by decide)),
        confGet_congr conf conf2 "cpu_affinity" (pyInt 0)
          (hagree "cpu_affinity" (by decide)),
        confGet_congr conf conf2 "sync" (pyBool false)
          (hagree "sync" (by decide)),
        confGet_congr conf conf2 "catch_up" (pyBool true)
          (hagree "catch_up" (by decide)),
        confGet_congr conf conf2 "testing" (pyBool false)
          (hagree "testing" (by decide))]

/-- Witness for C8: with an empty overrides mapping the label takes its
default, and a mapping holding only an unknown key resolves to the same
snapshot as the empty mapping. -/
theorem per_field_defaulting_witness :
    (Conf.snapshotOf [] "k" envOS).LABEL = pyStr "Django Q"
    ∧ Conf.snapshotOf [("bogus", pyInt 1)] "k" envOS
        = Conf.snapshotOf [] "k" envOS :=
  ⟨(per_field_defaulting [] "k" envOS (Conf.snapshotOf [] "k" envOS)
      rfl).1.2.2.2.2.2.2.2.2.2.1 rfl,
   (per_field_defaulting [("bogus", pyInt 1)] "k" envOS
      (Conf.snapshotOf [("bogus", pyInt 1)] "k" envOS) rfl).2
      [] (Conf.snapshotOf [] "k" envOS) rfl (by decide)⟩

end DjangoQ
